import Mathlib

/-!
Shallow embedding of the Ecommerce-sentiment-prediction pipeline.

The embedded code is `src/services/processor/processor.py` (the batch
processor: `analyze_product` and `process_batch`) together with the insights
lookup of the daily-report endpoint in `src/services/app/app.py`
(`api_daily`).  Python dynamic values that the processor inspects are
modelled by the inductive `Val`; Python `or` becomes `pyOr` over the
truthiness predicate, and the fallible coercions `int(...)` / `float(...)`
become `Option`-returning functions.  The three Mongo collections (raw
products, processed products, insights) are modelled as Lean lists, with
`update_one`/`replace_one` upserts as first-match list surgery.  Wall-clock
reads are supplied by injected clock functions indexed by the number of
records processed so far, and VADER's `polarity_scores(...)['compound']`
is an injected function `String → ℚ` (the spec treats the scorer as a
black box); compound scores, prices and ratings are rationals.
-/

/-- A Python runtime value as far as the processor inspects one:
`None`, an int, a float, a string, or a bool. -/
inductive Val where
  | vNone : Val
  | vInt : ℤ → Val
  | vFloat : ℚ → Val
  | vStr : String → Val
  | vBool : Bool → Val
deriving DecidableEq, Repr

namespace Val

/-- Python truthiness: `None`, `0`, `0.0`, `""` and `False` are falsy. -/
def truthy : Val → Bool
  | vNone => false
  | vInt n => n ≠ 0
  | vFloat q => q ≠ 0
  | vStr s => s ≠ ""
  | vBool b => b

/-- Truncation toward zero, as Python `int()` applied to a float. -/
def ratTrunc (q : ℚ) : ℤ :=
  if 0 ≤ q then ⌊q⌋ else -⌊-q⌋

/-- Leading and trailing whitespace stripped from a character list (Python's
numeric conversions ignore surrounding whitespace). -/
def trimChars (l : List Char) : List Char :=
  ((l.dropWhile Char.isWhitespace).reverse.dropWhile Char.isWhitespace).reverse

/-- Digits-only character list to a natural number; `none` on empty or
non-digit input. -/
def digitsToNat (l : List Char) : Option ℕ :=
  if l = [] then none
  else if l.all Char.isDigit then
    some (l.foldl (fun n c => n * 10 + (c.toNat - 48)) 0)
  else none

/-- An optionally signed decimal integer string, as Python `int(str)`;
`none` when the string is not a valid integer literal. -/
def strToInt (s : String) : Option ℤ :=
  match trimChars s.data with
  | '-' :: rest => (digitsToNat rest).map (fun n => -(n : ℤ))
  | '+' :: rest => (digitsToNat rest).map (fun n => (n : ℤ))
  | l => (digitsToNat l).map (fun n => (n : ℤ))

/-- Python `int(x)`: ints pass through, floats truncate toward zero, bools
map to 0/1, strings parse as an optionally signed decimal integer (failure
raises, hence `none`), and `int(None)` raises. -/
def toPyInt : Val → Option ℤ
  | vNone => none
  | vInt n => some n
  | vFloat q => some (ratTrunc q)
  | vStr s => strToInt s
  | vBool b => some (if b then 1 else 0)

/-- An unsigned decimal literal `123` or `123.45` as a rational. -/
def parsePosDecimal (l : List Char) : Option ℚ :=
  match l.splitOn '.' with
  | [a] => (digitsToNat a).map (fun n => (n : ℚ))
  | [a, b] =>
      match digitsToNat a, digitsToNat b with
      | some n, some f => some ((n : ℚ) + (f : ℚ) / ((10 : ℚ) ^ b.length))
      | _, _ => none
  | _ => none

/-- An optionally signed decimal string, as Python `float(str)`; `none`
when the string is not a valid decimal literal. -/
def strToRat (s : String) : Option ℚ :=
  match trimChars s.data with
  | '-' :: rest => (parsePosDecimal rest).map Neg.neg
  | '+' :: rest => parsePosDecimal rest
  | l => parsePosDecimal l

/-- Python `float(x)`: numbers pass through, bools map to 0.0/1.0, strings
parse as a decimal literal (failure raises, hence `none`), and
`float(None)` raises. -/
def toPyFloat : Val → Option ℚ
  | vNone => none
  | vInt n => some (n : ℚ)
  | vFloat q => some q
  | vStr s => strToRat s
  | vBool b => some (if b then 1 else 0)

end Val

/-- Python `a or b` (short-circuiting on truthiness). -/
def pyOr (a b : Val) : Val :=
  if a.truthy then a else b

/-- The nested `rating` sub-document of a raw product (`{rate, count}`). -/
structure Rating where
  rate : Option ℚ
  count : Option ℤ
deriving DecidableEq, Repr

/-- One document of the raw products collection.  `oid` stands for the Mongo
`_id`; `product_id`, `id` and `price` are kept as raw dynamic values because
the processor coerces them fallibly; `processed` is the consumption flag
(absent on ingestion, hence a `Val`), `processed_at` the consumption
timestamp. -/
structure RawDoc where
  oid : ℕ
  product_id : Val
  id : Val
  title : Option String
  description : Option String
  category : Option String
  price : Val
  rating : Option Rating
  ingested_at : ℤ
  processed : Val
  processed_at : Option ℤ
deriving DecidableEq, Repr

/-- The processed-product document built by `process_batch` (the `proc_doc`
dict literal in `processor.py`). -/
structure ProcDoc where
  product_id : ℤ
  title : Option String
  category : Option String
  price : ℚ
  avg_rating : Option ℚ
  rating_count : Option ℤ
  sentiment_score : ℚ
  sentiment_label : String
  last_processed : String
  timestamp : ℤ
deriving DecidableEq, Repr

/-- The threshold policy of `analyze_product`: `label = 'neutral'`, then
`positive` if `score >= 0.05`, `elif score <= -0.05` then `negative`. -/
def labelOf (score : ℚ) : String :=
  if score ≥ 5 / 100 then "positive"
  else if score ≤ -(5 / 100) then "negative"
  else "neutral"

/-- `analyze_product(doc)`: scores `(title or '') + '. ' + (description or '')`
with the injected compound scorer and derives the label. -/
def analyze_product (analyzer : String → ℚ) (doc : RawDoc) : ℚ × String :=
  let text := (doc.title.getD "") ++ ". " ++ (doc.description.getD "")
  let score := analyzer text
  (score, labelOf score)

/-- `int(doc.get('product_id') or doc.get('id') or 0)`; `none` when the
coercion raises (e.g. a non-numeric string id). -/
def pidOf (doc : RawDoc) : Option ℤ :=
  (pyOr (pyOr doc.product_id doc.id) (Val.vInt 0)).toPyInt

/-- `float(doc.get('price') or 0.0)`; `none` when the coercion raises. -/
def priceOf (doc : RawDoc) : Option ℚ :=
  (pyOr doc.price (Val.vFloat 0)).toPyFloat

/-- The body of the per-record loop of `process_batch` up to the `proc_doc`
dict: id coercion, sentiment analysis, and field extraction with defaults,
at the given wall-clock readings.  `none` means the record raised
(uncaught inside the loop). -/
def transform (analyzer : String → ℚ) (doc : RawDoc)
    (nowIso : String) (nowMs : ℤ) : Option ProcDoc :=
  match pidOf doc with
  | none => none
  | some pid =>
    let sl := analyze_product analyzer doc
    match priceOf doc with
    | none => none
    | some pr =>
      some { product_id := pid
             title := doc.title
             category := doc.category
             price := pr
             avg_rating := doc.rating.bind Rating.rate
             rating_count := doc.rating.bind Rating.count
             sentiment_score := sl.1
             sentiment_label := sl.2
             last_processed := nowIso
             timestamp := nowMs }

/-- One entry of `top_positive` / `top_negative`
(`{'product_id':…, 'title':…, 'score':…}`). -/
structure TopEntry where
  product_id : ℤ
  title : Option String
  score : ℚ
deriving DecidableEq, Repr

/-- One document of the insights collection.  `idTag` stands for the Mongo
`_id` (the processor always writes the sentinel `"latest"`). -/
structure InsDoc where
  idTag : String
  generated_at : String
  top_positive : List TopEntry
  top_negative : List TopEntry
  avg_sentiment : ℚ
deriving DecidableEq, Repr

/-- The whole persistent state the processor touches: the raw products
collection, the processed products collection, and the insights
collection. -/
structure PState where
  raw : List RawDoc
  proc : List ProcDoc
  insights : List InsDoc
deriving DecidableEq, Repr

/-- The filter `{'processed': {'$ne': True}}`: matches documents whose
`processed` field is absent or anything other than boolean `True`. -/
def notConsumed (d : RawDoc) : Bool :=
  d.processed ≠ Val.vBool true

/-- Insert into a list already ascending by `ingested_at`, before the first
strictly larger key (so equal keys keep their original relative order, a
stable sort). -/
def insertAsc (x : RawDoc) : List RawDoc → List RawDoc
  | [] => [x]
  | y :: ys =>
    if y.ingested_at < x.ingested_at then y :: insertAsc x ys
    else x :: y :: ys

/-- Stable insertion sort ascending by `ingested_at`
(`.sort('ingested_at', 1)`). -/
def sortAsc : List RawDoc → List RawDoc
  | [] => []
  | d :: ds => insertAsc d (sortAsc ds)

/-- The batch query
`raw_col.find({'processed': {'$ne': True}}).sort('ingested_at', 1).limit(500)`:
keep unconsumed documents, order ascending by ingestion time, cap at 500.
A pure read: it has no effect on any collection. -/
def selectBatch (raw : List RawDoc) : List RawDoc :=
  (sortAsc (raw.filter notConsumed)).take 500

/-- `proc_col.update_one({'product_id': pid}, {'$set': proc_doc}, upsert=True)`:
replace the first document with this `product_id` (the `$set` lists every
field of the document), or append when none exists. -/
def upsertProc (p : ProcDoc) : List ProcDoc → List ProcDoc
  | [] => [p]
  | q :: qs =>
    if q.product_id = p.product_id then p :: qs
    else q :: upsertProc p qs

/-- `raw_col.update_one({'_id': doc['_id']}, {'$set': {'processed': True,
'processed_at': now_ms}})`: set the consumption flag and timestamp on the
first raw document with this `_id`; every other field is untouched. -/
def markRaw (ms : ℤ) (i : ℕ) : List RawDoc → List RawDoc
  | [] => []
  | d :: ds =>
    if d.oid = i then
      { d with processed := Val.vBool true, processed_at := some ms } :: ds
    else d :: markRaw ms i ds

/-- Insert into a list already descending by `sentiment_score`, after every
strictly larger key (equal keys keep original relative order, matching the
stable `sorted(..., reverse=True)`). -/
def insertDesc (x : ProcDoc) : List ProcDoc → List ProcDoc
  | [] => [x]
  | y :: ys =>
    if x.sentiment_score < y.sentiment_score then y :: insertDesc x ys
    else x :: y :: ys

/-- `sorted(all_proc, key=lambda x: x.get('sentiment_score',0), reverse=True)`:
stable sort descending by sentiment score. -/
def sortDescBySent : List ProcDoc → List ProcDoc
  | [] => []
  | p :: ps => insertDesc p (sortDescBySent ps)

/-- Project a processed document to a top-list entry. -/
def toEntry (d : ProcDoc) : TopEntry :=
  { product_id := d.product_id, title := d.title, score := d.sentiment_score }

/-- The `insights` dict of `process_batch`: `top_positive` is the first five
of the descending sort, `top_negative` the last five (`[-5:]`), and
`avg_sentiment` the mean over the batch. -/
def mkInsights (allProc : List ProcDoc) (genAt : String) : InsDoc :=
  let sorted := sortDescBySent allProc
  { idTag := "latest"
    generated_at := genAt
    top_positive := (sorted.take 5).map toEntry
    top_negative := (sorted.drop (sorted.length - 5)).map toEntry
    avg_sentiment := (allProc.map ProcDoc.sentiment_score).sum
      / (allProc.length : ℚ) }

/-- `insights_col.replace_one({'_id':'latest'}, insights, upsert=True)`:
replace the first document with `_id = 'latest'`, or append when none
exists. -/
def replaceLatest (i : InsDoc) : List InsDoc → List InsDoc
  | [] => [i]
  | d :: ds =>
    if d.idTag = "latest" then i :: ds
    else d :: replaceLatest i ds

/-- The `for doc in cursor` loop of `process_batch` over the remaining
batch.  `n` counts records already processed and indexes the clocks;
`markOk` says, per raw `_id`, whether the consumption mark succeeds (its
failure is caught and only logged).  Returns the raw store, the processed
store, the accumulated `all_proc` list, and whether an uncaught per-record
exception aborted the loop (skipping the rest of the batch and the
insights block). -/
def processLoop (analyzer : String → ℚ) (markOk : ℕ → Bool)
    (isoClock : ℕ → String) (msClock : ℕ → ℤ) :
    List RawDoc → ℕ → List RawDoc → List ProcDoc → List ProcDoc →
    List RawDoc × List ProcDoc × List ProcDoc × Bool
  | [], _, rawS, procS, acc => (rawS, procS, acc, false)
  | d :: ds, n, rawS, procS, acc =>
    match transform analyzer d (isoClock n) (msClock n) with
    | none => (rawS, procS, acc, true)
    | some p =>
      let procS1 := upsertProc p procS
      let rawS1 := if markOk d.oid then markRaw (msClock n) d.oid rawS else rawS
      processLoop analyzer markOk isoClock msClock ds (n + 1) rawS1 procS1
        (acc ++ [p])

/-- `process_batch()`: select the batch, run the per-record loop, and when
the loop finished without an uncaught exception and produced at least one
record, replace the `'latest'` insights snapshot.  When the loop aborted,
the partial raw/processed updates persist but the insights block is
skipped. -/
def process_batch (analyzer : String → ℚ) (markOk : ℕ → Bool)
    (isoClock : ℕ → String) (msClock : ℕ → ℤ) (st : PState) : PState :=
  let batch := selectBatch st.raw
  match processLoop analyzer markOk isoClock msClock batch 0 st.raw st.proc []
    with
  | (rawS, procS, allProc, aborted) =>
    if aborted then { raw := rawS, proc := procS, insights := st.insights }
    else if allProc.isEmpty then
      { raw := rawS, proc := procS, insights := st.insights }
    else
      { raw := rawS, proc := procS
        insights :=
          replaceLatest (mkInsights allProc (isoClock allProc.length))
            st.insights }

/-- The insights lookup of `api_daily` in `app.py`:
`insights_col.find_one({'_id':'latest'}) or insights_col.find_one({})` —
the `'latest'` document when present, otherwise whatever document the
collection returns first, otherwise `None`. -/
def api_daily_insights (col : List InsDoc) : Option InsDoc :=
  match col.find? (fun d => d.idTag = "latest") with
  | some d => some d
  | none => col.head?

/-! Helper lemmas and concrete fixtures. -/

/-- A minimal raw document: every optional field absent, as a freshly
ingested record with no usable fields. -/
def emptyRawDoc : RawDoc :=
  { oid := 0
    product_id := Val.vNone
    id := Val.vNone
    title := none
    description := none
    category := none
    price := Val.vNone
    rating := none
    ingested_at := 0
    processed := Val.vNone
    processed_at := none }

/-- Claim C6: for every compound sentiment score s, the derived label is
positive if and only if s ≥ 0.05, negative if and only if s ≤ -0.05, and
neutral for every s strictly between -0.05 and 0.05; in particular s = 0.05
yields positive and s = -0.05 yields negative. -/
theorem c6_threshold_policy (s : ℚ) (doc : RawDoc) :
    (analyze_product (fun _ => s) doc).2 = labelOf s ∧
    (labelOf s = "positive" ↔ 5 / 100 ≤ s) ∧
    (labelOf s = "negative" ↔ s ≤ -(5 / 100)) ∧
    (-(5 / 100) < s → s < 5 / 100 → labelOf s = "neutral") := by
  refine ⟨rfl, ?_, ?_, ?_⟩
  · unfold labelOf
    by_cases h1 : (5 : ℚ) / 100 ≤ s
    · simp [h1]
    · by_cases h2 : s ≤ -(5 / 100) <;> simp [h1, h2]
  · unfold labelOf
    by_cases h1 : (5 : ℚ) / 100 ≤ s
    · have h2 : ¬ s ≤ -(5 / 100) := by linarith
      simp [h1, h2]
    · by_cases h2 : s ≤ -(5 / 100) <;> simp [h1, h2]
  · intro ha hb
    have h1 : ¬ (5 : ℚ) / 100 ≤ s := by linarith
    have h2 : ¬ s ≤ -(5 / 100) := by linarith
    simp [labelOf, h1, h2]

/-- Witness for C6 at the boundary scores. -/
theorem c6_threshold_policy_witness :
    labelOf (5 / 100) = "positive" ∧ labelOf (-(5 / 100)) = "negative" ∧
    labelOf (1 / 100) = "neutral" :=
  ⟨(c6_threshold_policy (5 / 100) emptyRawDoc).2.1.mpr (by norm_num),
   (c6_threshold_policy (-(5 / 100)) emptyRawDoc).2.2.1.mpr (by norm_num),
   (c6_threshold_policy (1 / 100) emptyRawDoc).2.2.2 (by norm_num)
     (by norm_num)⟩

/-- Claim C5: re-running the per-record pipeline on the same raw record at a
later wall-clock reading yields the same processed document up to the two
timestamp fields. -/
theorem c5_idempotent_reprocess (analyzer : String → ℚ) (d : RawDoc)
    (iso1 iso2 : String) (ms1 ms2 : ℤ) (p1 p2 : ProcDoc)
    (h1 : transform analyzer d iso1 ms1 = some p1)
    (h2 : transform analyzer d iso2 ms2 = some p2) :
    p2 = { p1 with last_processed := iso2, timestamp := ms2 } := by
  unfold transform at h1 h2
  cases hp : pidOf d <;> rw [hp] at h1 h2
  · exact absurd h1 (by simp)
  · cases hq : priceOf d <;> rw [hq] at h1 h2
    · exact absurd h1 (by simp)
    · simp only [Option.some.injEq] at h1 h2
      rw [← h1, ← h2]

/-- A raw document whose product identifier is a non-numeric string (and
whose generic id is absent): `int('not-a-number')` raises. -/
def badIdDoc : RawDoc :=
  { oid := 7
    product_id := Val.vStr "not-a-number"
    id := Val.vNone
    title := some "Widget"
    description := none
    category := none
    price := Val.vNone
    rating := none
    ingested_at := 10
    processed := Val.vNone
    processed_at := none }

/-- A store holding only the malformed-id raw document. -/
def badIdState : PState :=
  { raw := [badIdDoc], proc := [], insights := [] }

/-- Counterexample to C3: on a raw document whose product-identifier field
is a non-numeric string, the id coercion raises (`pidOf = none`) instead of
defaulting to 0, and running a cycle over a store holding only this record
upserts nothing — the record is dropped, not processed with id 0. -/
theorem c3_counterexample :
    pidOf badIdDoc = none ∧
    (process_batch (fun _ => 0) (fun _ => true) (fun _ => "T")
        (fun _ => 0) badIdState).proc = [] := by
  constructor
  · decide
  · decide

/-- Claim C3 as amended: the id defaults to 0 only when both the
product-identifier field and the generic id field are falsy (absent, None,
0, empty string or False); such a record is still transformed, with
sourceId 0.  (A truthy non-numeric id instead raises, dropping the record
and aborting the rest of the batch — see the counterexample.) -/
theorem c3_default_id (analyzer : String → ℚ) (iso : String) (ms : ℤ)
    (d : RawDoc) (pr : ℚ)
    (h1 : d.product_id.truthy = false) (h2 : d.id.truthy = false)
    (hp : priceOf d = some pr) :
    pidOf d = some 0 ∧
    ∃ p, transform analyzer d iso ms = some p ∧ p.product_id = 0 := by
  have hpid : pidOf d = some 0 := by
    unfold pidOf pyOr
    simp [h1, h2, Val.toPyInt]
  refine ⟨hpid, ?_⟩
  unfold transform
  rw [hpid, hp]
  exact ⟨_, rfl, rfl⟩

/-- Witness for C3 as amended, on a record with both id fields absent. -/
theorem c3_default_id_witness :
    emptyRawDoc.product_id.truthy = false ∧
    emptyRawDoc.id.truthy = false ∧
    priceOf emptyRawDoc = some 0 ∧
    (pidOf emptyRawDoc = some 0 ∧
      ∃ p, transform (fun _ => 0) emptyRawDoc "T" 0 = some p ∧
        p.product_id = 0) :=
  ⟨rfl, rfl, rfl,
   c3_default_id (fun _ => 0) "T" 0 emptyRawDoc 0 rfl rfl rfl⟩

/-- Claim C10: when no insights document has id `latest`, the daily-report
endpoint serves the collection's first document instead of reporting the
snapshot as absent, and `None` only when the collection is empty. -/
theorem c10_insights_fallback (col : List InsDoc)
    (h : ∀ d ∈ col, d.idTag ≠ "latest") :
    api_daily_insights col = col.head? ∧
    (col ≠ [] → (api_daily_insights col).isSome = true) ∧
    (col = [] → api_daily_insights col = none) := by
  have hf : col.find? (fun d => d.idTag = "latest") = none := by
    rw [List.find?_eq_none]
    intro x hx
    simp [h x hx]
  have hmain : api_daily_insights col = col.head? := by
    unfold api_daily_insights
    rw [hf]
  refine ⟨hmain, ?_, ?_⟩
  · intro hne
    rw [hmain]
    cases col with
    | nil => exact absurd rfl hne
    | cons a l => rfl
  · intro he
    rw [hmain, he]
    rfl

/-- An insights document that is not the `latest` snapshot. -/
def staleInsDoc : InsDoc :=
  { idTag := "stale"
    generated_at := "T"
    top_positive := []
    top_negative := []
    avg_sentiment := 0 }

/-- Witness for C10 on a one-document collection whose id is not `latest`. -/
theorem c10_insights_fallback_witness :
    (∀ d ∈ [staleInsDoc], d.idTag ≠ "latest") ∧
    api_daily_insights [staleInsDoc] = [staleInsDoc].head? :=
  ⟨by decide, (c10_insights_fallback [staleInsDoc] (by decide)).1⟩

/-- A well-formed raw record with integer id 5 (for the reprocessing
witness). -/
def plainDoc5 : RawDoc :=
  { oid := 5
    product_id := Val.vInt 5
    id := Val.vNone
    title := some "t5"
    description := none
    category := none
    price := Val.vNone
    rating := none
    ingested_at := 5
    processed := Val.vNone
    processed_at := none }

/-- The processed document for `plainDoc5` under the constant-0 scorer at
clock reading (iso, ms). -/
def plainProc5 (iso : String) (ms : ℤ) : ProcDoc :=
  { product_id := 5
    title := some "t5"
    category := none
    price := 0
    avg_rating := none
    rating_count := none
    sentiment_score := 0
    sentiment_label := "neutral"
    last_processed := iso
    timestamp := ms }

/-- Witness for C5: `plainDoc5` transformed at two different clock readings
gives the same document up to the timestamp fields. -/
theorem c5_idempotent_reprocess_witness :
    transform (fun _ => 0) plainDoc5 "A" 1 = some (plainProc5 "A" 1) ∧
    transform (fun _ => 0) plainDoc5 "B" 2 = some (plainProc5 "B" 2) ∧
    plainProc5 "B" 2 =
      { plainProc5 "A" 1 with last_processed := "B", timestamp := 2 } := by
  have h1 : transform (fun _ => 0) plainDoc5 "A" 1 =
      some (plainProc5 "A" 1) := by
    norm_num [transform, pidOf, priceOf, pyOr, Val.truthy, Val.toPyInt,
      Val.toPyFloat, analyze_product, labelOf, plainDoc5, plainProc5]
  have h2 : transform (fun _ => 0) plainDoc5 "B" 2 =
      some (plainProc5 "B" 2) := by
    norm_num [transform, pidOf, priceOf, pyOr, Val.truthy, Val.toPyInt,
      Val.toPyFloat, analyze_product, labelOf, plainDoc5, plainProc5]
  exact ⟨h1, h2,
    c5_idempotent_reprocess (fun _ => 0) plainDoc5 "A" "B" 1 2 _ _ h1 h2⟩

/-- Claim C2 as amended: in a batch [d1, d2, d3] where d2's transformation
raises, d1 (processed before the failure) is upserted into the processed
store, but the uncaught exception aborts the remainder of the batch: d3 is
not processed and no insights snapshot is written that cycle.  (The same
propagation applies to a processed-store upsert error, which the loop also
does not catch per record.) -/
theorem c2_record2_fails_aborts_rest (analyzer : String → ℚ)
    (markOk : ℕ → Bool) (isoClock : ℕ → String) (msClock : ℕ → ℤ)
    (st : PState) (d1 d2 d3 : RawDoc) (p1 : ProcDoc)
    (hsel : selectBatch st.raw = [d1, d2, d3])
    (h1 : transform analyzer d1 (isoClock 0) (msClock 0) = some p1)
    (h2 : transform analyzer d2 (isoClock 1) (msClock 1) = none) :
    (process_batch analyzer markOk isoClock msClock st).proc =
      upsertProc p1 st.proc ∧
    (process_batch analyzer markOk isoClock msClock st).insights =
      st.insights := by
  unfold process_batch
  rw [hsel]
  simp [processLoop, h1, h2]

/-- First record of the partial-batch counterexample: valid id 1. -/
def c2Doc1 : RawDoc :=
  { oid := 1
    product_id := Val.vInt 1
    id := Val.vNone
    title := some "a"
    description := none
    category := none
    price := Val.vNone
    rating := none
    ingested_at := 1
    processed := Val.vNone
    processed_at := none }

/-- Second record: its product identifier is a truthy non-numeric string,
so its transformation raises. -/
def c2Doc2 : RawDoc :=
  { oid := 2
    product_id := Val.vStr "oops"
    id := Val.vNone
    title := some "b"
    description := none
    category := none
    price := Val.vNone
    rating := none
    ingested_at := 2
    processed := Val.vNone
    processed_at := none }

/-- Third record: valid id 3. -/
def c2Doc3 : RawDoc :=
  { oid := 3
    product_id := Val.vInt 3
    id := Val.vNone
    title := some "c"
    description := none
    category := none
    price := Val.vNone
    rating := none
    ingested_at := 3
    processed := Val.vNone
    processed_at := none }

/-- A store holding exactly the three-record batch of the counterexample. -/
def c2State : PState :=
  { raw := [c2Doc1, c2Doc2, c2Doc3], proc := [], insights := [] }

/-- The processed document the cycle produces for `c2Doc1`. -/
def c2Proc1 : ProcDoc :=
  { product_id := 1
    title := some "a"
    category := none
    price := 0
    avg_rating := none
    rating_count := none
    sentiment_score := 0
    sentiment_label := "neutral"
    last_processed := "T"
    timestamp := 0 }

/-- Counterexample to C2: in the batch [c2Doc1, c2Doc2, c2Doc3] where
record 2's transformation raises, the cycle upserts only record 1 — record
3 is never processed — and no insights snapshot is written at all, instead
of aggregating records 1 and 3 as the claim states. -/
theorem c2_counterexample :
    (process_batch (fun _ => 0) (fun _ => true) (fun _ => "T") (fun _ => 0)
        c2State).proc.map ProcDoc.product_id = [1] ∧
    ¬ (3 : ℤ) ∈ (process_batch (fun _ => 0) (fun _ => true) (fun _ => "T")
        (fun _ => 0) c2State).proc.map ProcDoc.product_id ∧
    (process_batch (fun _ => 0) (fun _ => true) (fun _ => "T") (fun _ => 0)
        c2State).insights = [] := by
  have hsel : selectBatch c2State.raw = [c2Doc1, c2Doc2, c2Doc3] := by
    decide
  have hA : transform (fun _ => 0) c2Doc1 "T" 0 = some c2Proc1 := by
    norm_num [transform, pidOf, priceOf, pyOr, Val.truthy, Val.toPyInt,
      Val.toPyFloat, analyze_product, labelOf, c2Doc1, c2Proc1]
  have hB : transform (fun _ => 0) c2Doc2 "T" 0 = none := by
    have h2 : pidOf c2Doc2 = none := by decide
    simp [transform, h2]
  refine ⟨?_, ?_, ?_⟩ <;>
    simp [process_batch, hsel, processLoop, hA, hB, upsertProc, c2Proc1,
      c2State]

/-- Witness for C2 as amended, instantiated on the same three-record
batch. -/
theorem c2_record2_fails_aborts_rest_witness :
    selectBatch c2State.raw = [c2Doc1, c2Doc2, c2Doc3] ∧
    transform (fun _ => 0) c2Doc1 "T" 0 = some c2Proc1 ∧
    transform (fun _ => 0) c2Doc2 "T" 0 = none ∧
    ((process_batch (fun _ => 0) (fun _ => true) (fun _ => "T")
        (fun _ => 0) c2State).proc = upsertProc c2Proc1 c2State.proc ∧
      (process_batch (fun _ => 0) (fun _ => true) (fun _ => "T")
        (fun _ => 0) c2State).insights = c2State.insights) := by
  have hsel : selectBatch c2State.raw = [c2Doc1, c2Doc2, c2Doc3] := by
    decide
  have hA : transform (fun _ => 0) c2Doc1 "T" 0 = some c2Proc1 := by
    norm_num [transform, pidOf, priceOf, pyOr, Val.truthy, Val.toPyInt,
      Val.toPyFloat, analyze_product, labelOf, c2Doc1, c2Proc1]
  have hB : transform (fun _ => 0) c2Doc2 "T" 0 = none := by
    have h2 : pidOf c2Doc2 = none := by decide
    simp [transform, h2]
  exact ⟨hsel, hA, hB,
    c2_record2_fails_aborts_rest (fun _ => 0) (fun _ => true) (fun _ => "T")
      (fun _ => 0) c2State c2Doc1 c2Doc2 c2Doc3 c2Proc1 hsel hA hB⟩

/-- Claim C4: on each record the processed-store upsert happens (before the
consumption mark); when the consumption mark fails, the failure is only
logged: the raw store is left unchanged (the record stays unconsumed and
eligible for the next cycle), and the record still counts as processed —
it is aggregated into the insights snapshot. -/
theorem c4_mark_failure_still_counts (analyzer : String → ℚ)
    (markOk : ℕ → Bool) (isoClock : ℕ → String) (msClock : ℕ → ℤ)
    (st : PState) (d : RawDoc) (p : ProcDoc)
    (hsel : selectBatch st.raw = [d])
    (ht : transform analyzer d (isoClock 0) (msClock 0) = some p)
    (hm : markOk d.oid = false) :
    (process_batch analyzer markOk isoClock msClock st).proc =
      upsertProc p st.proc ∧
    (process_batch analyzer markOk isoClock msClock st).raw = st.raw ∧
    (process_batch analyzer markOk isoClock msClock st).insights =
      replaceLatest (mkInsights [p] (isoClock 1)) st.insights := by
  unfold process_batch
  rw [hsel]
  simp [processLoop, ht, hm]

/-- A store holding only `plainDoc5`, with seeded processed and insights
collections that a mark failure must not destroy. -/
def c4State : PState :=
  { raw := [plainDoc5], proc := [], insights := [staleInsDoc] }

/-- Witness for C4: `plainDoc5` with a failing consumption mark is still
upserted and aggregated, and the raw store is unchanged. -/
theorem c4_mark_failure_still_counts_witness :
    selectBatch c4State.raw = [plainDoc5] ∧
    transform (fun _ => 0) plainDoc5 "T" 0 = some (plainProc5 "T" 0) ∧
    (fun _ : ℕ => false) plainDoc5.oid = false ∧
    ((process_batch (fun _ => 0) (fun _ => false) (fun _ => "T")
        (fun _ => 0) c4State).proc =
      upsertProc (plainProc5 "T" 0) c4State.proc ∧
      (process_batch (fun _ => 0) (fun _ => false) (fun _ => "T")
        (fun _ => 0) c4State).raw = c4State.raw ∧
      (process_batch (fun _ => 0) (fun _ => false) (fun _ => "T")
        (fun _ => 0) c4State).insights =
        replaceLatest (mkInsights [plainProc5 "T" 0] "T")
          c4State.insights) := by
  have hsel : selectBatch c4State.raw = [plainDoc5] := by decide
  have ht : transform (fun _ => 0) plainDoc5 "T" 0 =
      some (plainProc5 "T" 0) := by
    norm_num [transform, pidOf, priceOf, pyOr, Val.truthy, Val.toPyInt,
      Val.toPyFloat, analyze_product, labelOf, plainDoc5, plainProc5]
  exact ⟨hsel, ht, rfl,
    c4_mark_failure_still_counts (fun _ => 0) (fun _ => false)
      (fun _ => "T") (fun _ => 0) c4State plainDoc5 (plainProc5 "T" 0)
      hsel ht rfl⟩

/-- Claim C8: a cycle that selects zero unconsumed raw records changes
nothing at all: no processed-store upsert, no consumption mark, and no
insights write — the entire state is left as it was. -/
theorem c8_empty_batch_frame (analyzer : String → ℚ) (markOk : ℕ → Bool)
    (isoClock : ℕ → String) (msClock : ℕ → ℤ) (st : PState)
    (h : selectBatch st.raw = []) :
    process_batch analyzer markOk isoClock msClock st = st := by
  unfold process_batch
  rw [h]
  simp [processLoop]

/-- A raw document already marked consumed. -/
def consumedDoc : RawDoc :=
  { oid := 9
    product_id := Val.vInt 9
    id := Val.vNone
    title := some "done"
    description := none
    category := none
    price := Val.vNone
    rating := none
    ingested_at := 9
    processed := Val.vBool true
    processed_at := some 1 }

/-- A store whose only raw record is consumed, with a seeded insights
snapshot. -/
def consumedState : PState :=
  { raw := [consumedDoc], proc := [], insights := [staleInsDoc] }

/-- Witness for C8 on a store with no unconsumed records. -/
theorem c8_empty_batch_frame_witness :
    selectBatch consumedState.raw = [] ∧
    process_batch (fun _ => 0) (fun _ => true) (fun _ => "T") (fun _ => 0)
      consumedState = consumedState :=
  ⟨by decide,
   c8_empty_batch_frame (fun _ => 0) (fun _ => true) (fun _ => "T")
     (fun _ => 0) consumedState (by decide)⟩

/-- The selection order of the batch query: ascending ingestion time. -/
def rawLE (a b : RawDoc) : Prop :=
  a.ingested_at ≤ b.ingested_at

/-- Membership in an insertion step. -/
theorem mem_insertAsc {x a : RawDoc} {l : List RawDoc} :
    a ∈ insertAsc x l ↔ a = x ∨ a ∈ l := by
  induction l with
  | nil => simp [insertAsc]
  | cons y ys ih =>
    unfold insertAsc
    split
    · simp only [List.mem_cons, ih]
      tauto
    · simp only [List.mem_cons]

/-- Membership in the insertion sort. -/
theorem mem_sortAsc {a : RawDoc} : ∀ {l : List RawDoc},
    a ∈ sortAsc l ↔ a ∈ l := by
  intro l
  induction l with
  | nil => simp [sortAsc]
  | cons d ds ih =>
    unfold sortAsc
    rw [mem_insertAsc]
    simp [ih]

/-- Inserting into a list sorted by ingestion time keeps it sorted. -/
theorem sorted_insertAsc (x : RawDoc) : ∀ {l : List RawDoc},
    l.Sorted rawLE → (insertAsc x l).Sorted rawLE := by
  intro l
  induction l with
  | nil =>
    intro _
    simp [insertAsc, List.Sorted]
  | cons y ys ih =>
    intro hs
    rw [List.sorted_cons] at hs
    unfold insertAsc
    split
    · next hlt =>
      rw [List.sorted_cons]
      refine ⟨?_, ih hs.2⟩
      intro b hb
      rcases mem_insertAsc.mp hb with rfl | hbys
      · exact le_of_lt hlt
      · exact hs.1 b hbys
    · next hge =>
      rw [List.sorted_cons]
      refine ⟨?_, List.sorted_cons.mpr hs⟩
      intro b hb
      rcases List.mem_cons.mp hb with rfl | hbys
      · exact le_of_not_lt hge
      · exact le_trans (le_of_not_lt hge) (hs.1 b hbys)

/-- The insertion sort produces a list sorted by ingestion time. -/
theorem sorted_sortAsc : ∀ (l : List RawDoc), (sortAsc l).Sorted rawLE := by
  intro l
  induction l with
  | nil => simp [sortAsc, List.Sorted]
  | cons d ds ih => exact sorted_insertAsc d ih

/-- Claim C7: every batch selection returns at most 500 records, all with
the consumption flag not set to boolean true, in ascending ingestion-time
order; when every raw record is consumed it returns the empty sequence,
and an empty selection short-circuits the whole cycle, leaving the state
untouched.  (`selectBatch` is a pure function of the raw collection, so
the query itself has no effect on any store.) -/
theorem c7_batch_selector (raw : List RawDoc) :
    (selectBatch raw).length ≤ 500 ∧
    (∀ d ∈ selectBatch raw, d.processed ≠ Val.vBool true) ∧
    (selectBatch raw).Sorted rawLE ∧
    ((∀ d ∈ raw, d.processed = Val.vBool true) → selectBatch raw = []) ∧
    (∀ (analyzer : String → ℚ) (markOk : ℕ → Bool) (isoClock : ℕ → String)
      (msClock : ℕ → ℤ) (st : PState), selectBatch st.raw = [] →
      process_batch analyzer markOk isoClock msClock st = st) := by
  refine ⟨?_, ?_, ?_, ?_, ?_⟩
  · exact List.length_take_le 500 _
  · intro d hd
    have hmem : d ∈ sortAsc (raw.filter notConsumed) :=
      List.take_subset 500 _ hd
    have hf : d ∈ raw.filter notConsumed := mem_sortAsc.mp hmem
    have hnc : notConsumed d = true := List.of_mem_filter hf
    simpa [notConsumed] using hnc
  · exact List.Pairwise.sublist (List.take_sublist 500 _)
      (sorted_sortAsc (raw.filter notConsumed))
  · intro hall
    have hf : raw.filter notConsumed = [] := by
      rw [List.filter_eq_nil_iff]
      intro a ha
      simp [notConsumed, hall a ha]
    unfold selectBatch
    rw [hf]
    rfl
  · intro analyzer markOk isoClock msClock st h
    unfold process_batch
    rw [h]
    simp [processLoop]

/-- Witness for C7 on the all-consumed single-record store. -/
theorem c7_batch_selector_witness :
    (∀ d ∈ consumedState.raw, d.processed = Val.vBool true) ∧
    selectBatch consumedState.raw = [] ∧
    process_batch (fun _ => 1) (fun _ => true) (fun _ => "S") (fun _ => 2)
      consumedState = consumedState := by
  refine ⟨by decide, (c7_batch_selector consumedState.raw).2.2.2.1
    (by decide), ?_⟩
  exact (c7_batch_selector consumedState.raw).2.2.2.2 (fun _ => 1)
    (fun _ => true) (fun _ => "S") (fun _ => 2) consumedState
    ((c7_batch_selector consumedState.raw).2.2.2.1 (by decide))

/-- Agreement of two raw documents on every field other than the
consumption flag and consumption timestamp. -/
def sameExceptConsumption (d e : RawDoc) : Prop :=
  e.oid = d.oid ∧ e.product_id = d.product_id ∧ e.id = d.id ∧
  e.title = d.title ∧ e.description = d.description ∧
  e.category = d.category ∧ e.price = d.price ∧ e.rating = d.rating ∧
  e.ingested_at = d.ingested_at

/-- Every raw document agrees with itself outside the consumption pair. -/
theorem sameExceptConsumption_refl (d : RawDoc) :
    sameExceptConsumption d d :=
  ⟨rfl, rfl, rfl, rfl, rfl, rfl, rfl, rfl, rfl⟩

/-- Agreement outside the consumption pair is transitive. -/
theorem sameExceptConsumption_trans {a b c : RawDoc}
    (h1 : sameExceptConsumption a b) (h2 : sameExceptConsumption b c) :
    sameExceptConsumption a c := by
  unfold sameExceptConsumption at *
  obtain ⟨e1, e2, e3, e4, e5, e6, e7, e8, e9⟩ := h1
  obtain ⟨f1, f2, f3, f4, f5, f6, f7, f8, f9⟩ := h2
  exact ⟨f1.trans e1, f2.trans e2, f3.trans e3, f4.trans e4, f5.trans e5,
    f6.trans e6, f7.trans e7, f8.trans e8, f9.trans e9⟩

/-- A list agrees with itself pointwise outside the consumption pair. -/
theorem forall2_sec_refl (l : List RawDoc) :
    List.Forall₂ sameExceptConsumption l l := by
  induction l with
  | nil => exact List.Forall₂.nil
  | cons d ds ih => exact List.Forall₂.cons (sameExceptConsumption_refl d) ih

/-- Pointwise agreement outside the consumption pair is transitive. -/
theorem forall2_sec_trans : ∀ {a b c : List RawDoc},
    List.Forall₂ sameExceptConsumption a b →
    List.Forall₂ sameExceptConsumption b c →
    List.Forall₂ sameExceptConsumption a c := by
  intro a b c hab
  induction hab generalizing c with
  | nil =>
    intro hbc
    cases hbc
    exact List.Forall₂.nil
  | cons hr hf ih =>
    intro hbc
    cases hbc with
    | cons hr2 hf2 =>
      exact List.Forall₂.cons (sameExceptConsumption_trans hr hr2) (ih hf2)

/-- The consumption mark changes only the consumption pair of (at most)
one document. -/
theorem forall2_sec_markRaw (ms : ℤ) (i : ℕ) : ∀ (l : List RawDoc),
    List.Forall₂ sameExceptConsumption l (markRaw ms i l) := by
  intro l
  induction l with
  | nil => exact List.Forall₂.nil
  | cons d ds ih =>
    unfold markRaw
    split
    · exact List.Forall₂.cons
        ⟨rfl, rfl, rfl, rfl, rfl, rfl, rfl, rfl, rfl⟩ (forall2_sec_refl ds)
    · exact List.Forall₂.cons (sameExceptConsumption_refl d) ih

/-- Across the whole per-record loop, the raw store changes only in
consumption pairs. -/
theorem forall2_sec_processLoop (analyzer : String → ℚ) (markOk : ℕ → Bool)
    (isoClock : ℕ → String) (msClock : ℕ → ℤ) :
    ∀ (batch : List RawDoc) (n : ℕ) (rawS : List RawDoc)
      (procS acc : List ProcDoc),
    List.Forall₂ sameExceptConsumption rawS
      (processLoop analyzer markOk isoClock msClock batch n rawS procS
        acc).1 := by
  intro batch
  induction batch with
  | nil =>
    intro n rawS procS acc
    exact forall2_sec_refl rawS
  | cons d ds ih =>
    intro n rawS procS acc
    unfold processLoop
    cases ht : transform analyzer d (isoClock n) (msClock n) with
    | none => exact forall2_sec_refl rawS
    | some p =>
      simp only []
      by_cases hm : markOk d.oid
      · rw [if_pos hm]
        exact forall2_sec_trans (forall2_sec_markRaw (msClock n) d.oid rawS)
          (ih (n + 1) _ _ _)
      · rw [if_neg hm]
        exact ih (n + 1) _ _ _

/-- Claim C9: a processing cycle rewrites every raw document only in its
consumption flag and consumption timestamp (every other field of every raw
record is unchanged, and no record is added or removed), and a record whose
flag is boolean true is never selected into a batch again. -/
theorem c9_raw_mutation_frame (analyzer : String → ℚ) (markOk : ℕ → Bool)
    (isoClock : ℕ → String) (msClock : ℕ → ℤ) (st : PState) (d : RawDoc)
    (hd : d.processed = Val.vBool true) :
    List.Forall₂ sameExceptConsumption st.raw
      (process_batch analyzer markOk isoClock msClock st).raw ∧
    d ∉ selectBatch st.raw := by
  constructor
  · have hloop := forall2_sec_processLoop analyzer markOk isoClock msClock
      (selectBatch st.raw) 0 st.raw st.proc []
    unfold process_batch
    rcases hEq : processLoop analyzer markOk isoClock msClock
      (selectBatch st.raw) 0 st.raw st.proc [] with ⟨rawS, procS, allProc,
      aborted⟩
    rw [hEq] at hloop
    simp only [hEq]
    split
    · exact hloop
    · split
      · exact hloop
      · exact hloop
  · intro hmem
    have hs : d ∈ sortAsc (st.raw.filter notConsumed) :=
      List.take_subset 500 _ hmem
    have hf : d ∈ st.raw.filter notConsumed := mem_sortAsc.mp hs
    have hnc : notConsumed d = true := List.of_mem_filter hf
    simp [notConsumed, hd] at hnc

/-- Witness for C9 on the three-record store (whose second record even
aborts the batch), with the consumed record of the C8 fixture. -/
theorem c9_raw_mutation_frame_witness :
    consumedDoc.processed = Val.vBool true ∧
    (List.Forall₂ sameExceptConsumption c2State.raw
      (process_batch (fun _ => 0) (fun _ => true) (fun _ => "T")
        (fun _ => 0) c2State).raw ∧
      consumedDoc ∉ selectBatch c2State.raw) :=
  ⟨rfl, c9_raw_mutation_frame (fun _ => 0) (fun _ => true) (fun _ => "T")
    (fun _ => 0) c2State consumedDoc rfl⟩

/-- A raw record of the eleven-score batch: id `i`, title `t`, ingestion
time `i`. -/
def c1Raw (i : ℕ) (t : String) : RawDoc :=
  { oid := i
    product_id := Val.vInt i
    id := Val.vNone
    title := some t
    description := none
    category := none
    price := Val.vNone
    rating := none
    ingested_at := (i : ℤ)
    processed := Val.vNone
    processed_at := none }

/-- A scorer assigning the eleven scores of the top-k test batch to the
texts of the eleven records (each text is the title followed by `. `). -/
def c1Analyzer : String → ℚ := fun t =>
  if t = "p1. " then 9 / 10 else if t = "p2. " then 5 / 10
  else if t = "p3. " then -(8 / 10) else if t = "p4. " then 1 / 10
  else if t = "p5. " then -(9 / 10) else if t = "p6. " then 0
  else if t = "p7. " then 3 / 10 else if t = "p8. " then -(3 / 10)
  else if t = "p9. " then 7 / 10 else if t = "p10. " then -(1 / 10)
  else if t = "p11. " then 2 / 10 else 0

/-- The store holding the eleven-record batch, in ingestion order. -/
def c1State : PState :=
  { raw := [c1Raw 1 "p1", c1Raw 2 "p2", c1Raw 3 "p3", c1Raw 4 "p4",
            c1Raw 5 "p5", c1Raw 6 "p6", c1Raw 7 "p7", c1Raw 8 "p8",
            c1Raw 9 "p9", c1Raw 10 "p10", c1Raw 11 "p11"]
    proc := []
    insights := [] }

set_option maxHeartbeats 4000000 in
/-- Claim C1 as amended: processing the eleven-score batch in one cycle
writes a snapshot whose topPositive is the 5 largest scores in descending
order [0.9, 0.7, 0.5, 0.3, 0.2], whose topNegative is the 5 smallest
scores in DESCENDING order (least negative first) [0.0, -0.1, -0.3, -0.8,
-0.9] — the tail of the same descending sort, not an ascending list — and
whose avgSentiment is the mean 3/55 of all 11 values. -/
theorem c1_topk_amended :
    (process_batch c1Analyzer (fun _ => true) (fun n => "T" ++ toString n)
        (fun n => (n : ℤ)) c1State).insights.map
      (fun i => (i.top_positive.map TopEntry.score,
        i.top_negative.map TopEntry.score, i.avg_sentiment))
    = [([9 / 10, 7 / 10, 5 / 10, 3 / 10, 2 / 10],
        [0, -(1 / 10), -(3 / 10), -(8 / 10), -(9 / 10)], 3 / 55)] := by
  simp only [c1State, c1Raw, c1Analyzer, process_batch, processLoop,
    selectBatch, sortAsc, insertAsc, notConsumed, transform, pidOf,
    priceOf, pyOr, Val.truthy, Val.toPyInt, Val.toPyFloat, analyze_product,
    labelOf, upsertProc, markRaw, mkInsights, sortDescBySent, insertDesc,
    toEntry, replaceLatest]
  simp
  norm_num [insertDesc, toEntry, mkInsights, sortDescBySent, upsertProc,
    replaceLatest]

set_option maxHeartbeats 4000000 in
/-- Counterexample to C1: the snapshot's topNegative is not the ascending
list [-0.9, -0.8, -0.3, -0.1, 0.0] the claim states (the code takes the
last five of the descending sort, so the order is reversed). -/
theorem c1_topk_counterexample :
    ¬ (process_batch c1Analyzer (fun _ => true) (fun n => "T" ++ toString n)
        (fun n => (n : ℤ)) c1State).insights.map
      (fun i => i.top_negative.map TopEntry.score)
    = [[-(9 / 10), -(8 / 10), -(3 / 10), -(1 / 10), 0]] := by
  simp only [c1State, c1Raw, c1Analyzer, process_batch, processLoop,
    selectBatch, sortAsc, insertAsc, notConsumed, transform, pidOf,
    priceOf, pyOr, Val.truthy, Val.toPyInt, Val.toPyFloat, analyze_product,
    labelOf, upsertProc, markRaw, mkInsights, sortDescBySent, insertDesc,
    toEntry, replaceLatest]
  simp
  norm_num [insertDesc, toEntry, mkInsights, sortDescBySent, upsertProc,
    replaceLatest]
